import Mathlib

/-!
Shallow embedding of `src/agents/agent_log_scorer.py` (the scoring pipeline
and the statistics aggregator) and proofs about it.

Python values that flow through the pipeline are modelled by `JValue`
(JSON-like data: the module only ever receives decoded JSON/YAML data).
Machine integers are modelled by `Int` (Python integers are unbounded, so no
modular arithmetic is needed).  Fallible code (`raise ValueError`, a
`TypeError` from `" ".join`) is modelled with `Except String`.
-/

/-- A decoded Python value as it appears in this module's data flow:
`None`, `bool`, `int`, `str`, `list`, `dict` (with string keys, as produced
by JSON/YAML decoding). -/
inductive JValue where
  | null
  | bool (b : Bool)
  | num (n : Int)
  | str (s : String)
  | arr (elems : List JValue)
  | obj (fields : List (String × JValue))

mutual
/-- Structural equality on `JValue` (Python `==` on decoded JSON data).
Written by hand because automatic deriving does not handle the nesting. -/
def JValue.beq : JValue → JValue → Bool
  | .null, .null => true
  | .bool a, .bool b => a == b
  | .num a, .num b => a == b
  | .str a, .str b => a == b
  | .arr xs, .arr ys => JValue.beqList xs ys
  | .obj xs, .obj ys => JValue.beqFields xs ys
  | _, _ => false

def JValue.beqList : List JValue → List JValue → Bool
  | [], [] => true
  | x :: xs, y :: ys => JValue.beq x y && JValue.beqList xs ys
  | _, _ => false

def JValue.beqFields : List (String × JValue) → List (String × JValue) → Bool
  | [], [] => true
  | (k1, v1) :: xs, (k2, v2) :: ys =>
      k1 == k2 && JValue.beq v1 v2 && JValue.beqFields xs ys
  | _, _ => false
end

/-- Python `isinstance(v, dict)`. -/
def JValue.isDict : JValue → Bool
  | .obj _ => true
  | _ => false

/-- Python `isinstance(v, list)`. -/
def JValue.isList : JValue → Bool
  | .arr _ => true
  | _ => false

/-- Python `isinstance(v, str)`. -/
def JValue.isStr : JValue → Bool
  | .str _ => true
  | _ => false

/-- Python `d.get(key)` / `d[key]` on a dict (first binding wins; a decoded
JSON object has distinct keys). `none` when `v` is not a dict or lacks the
key. -/
def JValue.objGet : JValue → String → Option JValue
  | .obj fields, key => (fields.find? (fun p => p.1 == key)).map (fun p => p.2)
  | _, _ => none

/-- Python `key in d`. -/
def JValue.hasKey (v : JValue) (key : String) : Bool :=
  (v.objGet key).isSome

/-- Python `type(v).__name__` for the decoded-JSON types. -/
def JValue.typeName : JValue → String
  | .null => "NoneType"
  | .bool _ => "bool"
  | .num _ => "int"
  | .str _ => "str"
  | .arr _ => "list"
  | .obj _ => "dict"

/-- Python truthiness `bool(v)` for the decoded-JSON types. -/
def JValue.toBool : JValue → Bool
  | .null => false
  | .bool b => b
  | .num n => n != 0
  | .str s => s != ""
  | .arr xs => !xs.isEmpty
  | .obj fs => !fs.isEmpty

mutual
/-- Python `repr(v)` for the decoded-JSON types.  String repr is exact for
strings without quotes/backslashes/control characters, which covers every
string this development evaluates. -/
def pyRepr : JValue → String
  | .null => "None"
  | .bool b => if b then "True" else "False"
  | .num n => toString n
  | .str s => "\x27" ++ s ++ "\x27"
  | .arr xs => "[" ++ pyReprList xs ++ "]"
  | .obj fs => "\x7b" ++ pyReprFields fs ++ "\x7d"

def pyReprList : List JValue → String
  | [] => ""
  | [x] => pyRepr x
  | x :: y :: rest => pyRepr x ++ ", " ++ pyReprList (y :: rest)

def pyReprFields : List (String × JValue) → String
  | [] => ""
  | [(k, v)] => "\x27" ++ k ++ "\x27: " ++ pyRepr v
  | (k, v) :: p :: rest =>
      "\x27" ++ k ++ "\x27: " ++ pyRepr v ++ ", " ++ pyReprFields (p :: rest)
end

/-- Python `str(v)`: a string is itself, everything else uses `repr`. -/
def pyStr : JValue → String
  | .str s => s
  | v => pyRepr v

/-- Python `s.lower()`.  `Char.toLower` folds ASCII letters; every keyword
and transcript this development reasons about concretely is within the
ASCII-cased fragment (umlauts and currency signs are caseless here). -/
def strLower (s : String) : String :=
  ⟨s.data.map Char.toLower⟩

/-- Python `sub in s` (substring containment, empty substring always found). -/
def listContainsSub : List Char → List Char → Bool
  | sub, [] => sub.isEmpty
  | sub, c :: cs => sub.isPrefixOf (c :: cs) || listContainsSub sub cs

/-- Python `sub in s` on strings. -/
def pyIn (sub s : String) : Bool :=
  listContainsSub sub.data s.data

/-- `RiskLevel` enumeration (`class RiskLevel(Enum)`). -/
inductive RiskLevel where
  | LOW
  | MEDIUM
  | HIGH
  | CRITICAL
deriving DecidableEq

/-- `RiskLevel.value` (the string payload of each enum member). -/
def RiskLevel.value : RiskLevel → String
  | .LOW => "LOW"
  | .MEDIUM => "MEDIUM"
  | .HIGH => "HIGH"
  | .CRITICAL => "CRITICAL"

/-- `RiskLevel._get_order`: index of the level in the declaration-order
list `[LOW, MEDIUM, HIGH, CRITICAL]`. -/
def RiskLevel.getOrder (l : RiskLevel) : Nat :=
  [RiskLevel.LOW, RiskLevel.MEDIUM, RiskLevel.HIGH, RiskLevel.CRITICAL].indexOf l

instance : BEq RiskLevel := ⟨fun a b => decide (a = b)⟩

instance : LawfulBEq RiskLevel where
  eq_of_beq h := by simpa [BEq.beq] using h
  rfl := by simp [BEq.beq]

/-- `RiskLevel.__lt__`. -/
def RiskLevel.ltB (a b : RiskLevel) : Bool :=
  decide (a.getOrder < b.getOrder)

/-- `RiskLevel.__le__`. -/
def RiskLevel.leB (a b : RiskLevel) : Bool :=
  decide (a.getOrder ≤ b.getOrder)

/-- `RiskLevel.__gt__`. -/
def RiskLevel.gtB (a b : RiskLevel) : Bool :=
  decide (a.getOrder > b.getOrder)

/-- `RiskLevel.__ge__`. -/
def RiskLevel.geB (a b : RiskLevel) : Bool :=
  decide (a.getOrder ≥ b.getOrder)

/-- The `risk_thresholds` dict of `ScoringConfig`: the four keys the module
ever reads (`_get_risk_level` uses `.get` with defaults, so each entry is
optional). -/
structure RiskThresholds where
  low : Option Int
  medium : Option Int
  high : Option Int
  critical : Option Int

/-- The optional `yaml_rules` dict (`flow_validator` group): the two rule
groups `_check_violations` reads, each defaulting to the empty list. -/
structure YamlRules where
  forbidden : List String
  must_include : List String

/-- `ScoringConfig` dataclass. -/
structure ScoringConfig where
  price_keywords : List String
  legal_keywords : List String
  risk_thresholds : RiskThresholds
  placeholder_bonus : Int
  yaml_rules : Option YamlRules

/-- The dataclass defaults of `ScoringConfig` (also `DEFAULT_CONFIG`). -/
def ScoringConfig.defaults : ScoringConfig where
  price_keywords :=
    ["€", "euro", "preis", "kostet", "kosten", "gebühr", "tarif", "$", "usd", "chf"]
  legal_keywords :=
    ["gesetz", "rechtlich", "erlaubt", "illegal", "legal", "vorschrift", "verordnung", "recht"]
  risk_thresholds := ⟨some 0, some 1, some 2, some 3⟩
  placeholder_bonus := -1
  yaml_rules := none

/-- `ScoreResult` dataclass.  `agent_id`, `contact`, `timestamp` hold
whatever `log.get` returned (the code does not coerce them). -/
structure ScoreResult where
  agent_id : JValue
  contact : Option JValue
  timestamp : Option JValue
  price_claim : Bool
  price_keywords_found : List String
  legal_claim : Bool
  legal_keywords_found : List String
  stop_triggered : Bool
  placeholder_used : Bool
  risk : Int
  risk_level : RiskLevel
  violations : List String

/-- `ScoreResult.is_critical`. -/
def ScoreResult.isCritical (r : ScoreResult) : Bool :=
  r.risk_level == RiskLevel.HIGH || r.risk_level == RiskLevel.CRITICAL

/-- The `risk_levels` histogram dict of `AgentStatistics`
(`{"LOW": 0, "MEDIUM": 0, "HIGH": 0, "CRITICAL": 0}`). -/
structure RiskLevelCounts where
  LOW : Nat
  MEDIUM : Nat
  HIGH : Nat
  CRITICAL : Nat
deriving DecidableEq

/-- `stats.risk_levels[result.risk_level.value] += 1`. -/
def RiskLevelCounts.bump (c : RiskLevelCounts) : RiskLevel → RiskLevelCounts
  | .LOW => { c with LOW := c.LOW + 1 }
  | .MEDIUM => { c with MEDIUM := c.MEDIUM + 1 }
  | .HIGH => { c with HIGH := c.HIGH + 1 }
  | .CRITICAL => { c with CRITICAL := c.CRITICAL + 1 }

/-- `AgentStatistics` dataclass.  Counters are `Nat` (they start at 0 and
are only ever incremented); `total_risk_score` is `Int` like the scores it
sums. -/
structure AgentStatistics where
  agent_id : JValue
  total_interactions : Nat
  total_risk_score : Int
  price_claims : Nat
  legal_claims : Nat
  stops_triggered : Nat
  placeholders_used : Nat
  critical_incidents : Nat
  risk_levels : RiskLevelCounts

/-- The dataclass defaults: `AgentStatistics(agent_id=...)` with all
counters zero (the defaultdict factory passes `agent_id="unknown"`). -/
def AgentStatistics.fresh (agent_id : JValue) : AgentStatistics where
  agent_id := agent_id
  total_interactions := 0
  total_risk_score := 0
  price_claims := 0
  legal_claims := 0
  stops_triggered := 0
  placeholders_used := 0
  critical_incidents := 0
  risk_levels := ⟨0, 0, 0, 0⟩

/-- `AgentStatistics.average_risk` (Python float division, modelled in ℚ). -/
def AgentStatistics.averageRisk (s : AgentStatistics) : ℚ :=
  if s.total_interactions = 0 then 0
  else (s.total_risk_score : ℚ) / (s.total_interactions : ℚ)

/-- `AgentStatistics.stop_rate` (Python float division, modelled in ℚ). -/
def AgentStatistics.stopRate (s : AgentStatistics) : ℚ :=
  let claims := s.price_claims + s.legal_claims
  if claims = 0 then 1
  else (s.stops_triggered : ℚ) / (claims : ℚ)

/-- `AgentLogScorer.validate_log`: returns `(is_valid, error_message)`. -/
def validate_log (log : JValue) : Bool × String :=
  if !log.isDict then
    (false, "Log muss ein Dictionary sein, erhalten: " ++ log.typeName)
  else if !log.hasKey "agent_id" then
    (false, "Pflichtfeld \x27agent_id\x27 fehlt")
  else
    match log.objGet "transcript" with
    | some t =>
        if !t.isList then (false, "Feld \x27transcript\x27 muss eine Liste sein")
        else (true, "")
    | none => (true, "")

/-- The `parts` list built by `AgentLogScorer._extract_transcript`: dict
lines contribute `line.get("text", "")` (whatever value that is), string
lines contribute themselves, other lines are skipped. -/
def transcriptParts : List JValue → List JValue
  | [] => []
  | line :: rest =>
      match line with
      | .obj _ => ((line.objGet "text").getD (.str "")) :: transcriptParts rest
      | .str s => .str s :: transcriptParts rest
      | _ => transcriptParts rest

/-- Python `" ".join(parts)`: raises `TypeError` unless every part is a
string. -/
def joinWithSpace (parts : List JValue) : Except String String :=
  if parts.all JValue.isStr then
    .ok (String.intercalate " " (parts.map pyStr))
  else
    .error "TypeError: sequence item: expected str instance"

/-- `AgentLogScorer._extract_transcript`.  `score_log` only calls this after
`validate_log`, which guarantees `transcript`, when present, is a list. -/
def extractTranscript (log : JValue) : Except String String :=
  let lines := match log.objGet "transcript" with
    | some (.arr xs) => xs
    | _ => []
  joinWithSpace (transcriptParts lines)

/-- `AgentLogScorer._check_keywords`. -/
def check_keywords (text : String) (keywords : List String) : Bool × List String :=
  let text_lower := strLower text
  let found := keywords.filter (fun kw => pyIn (strLower kw) text_lower)
  (found.length > 0, found)

/-- `AgentLogScorer._get_risk_level` (reads `self.config.risk_thresholds`
with `.get` defaults 0/1/2; the `critical` entry is never read). -/
def get_risk_level (config : ScoringConfig) (risk_score : Int) : RiskLevel :=
  let thresholds := config.risk_thresholds
  if risk_score ≤ thresholds.low.getD 0 then .LOW
  else if risk_score ≤ thresholds.medium.getD 1 then .MEDIUM
  else if risk_score ≤ thresholds.high.getD 2 then .HIGH
  else .CRITICAL

/-- `AgentLogScorer._check_violations` (the `log` and `transcript`
parameters are accepted but never read by the body). -/
def check_violations (config : ScoringConfig) (log : JValue) (transcript : String)
    (result : ScoreResult) : List String :=
  let _ := log
  let _ := transcript
  match config.yaml_rules with
  | none => []
  | some rules =>
      let fviol := rules.forbidden.flatMap (fun rule =>
        (if pyIn "price estimates without fact" (strLower rule)
            && result.price_claim && !result.stop_triggered
         then ["Verstoß: " ++ rule] else [])
        ++
        (if pyIn "legal promises without fact" (strLower rule)
            && result.legal_claim && !result.stop_triggered
         then ["Verstoß: " ++ rule] else []))
      let mviol := rules.must_include.flatMap (fun rule =>
        (if pyIn "stop_required on price" (strLower rule)
            && result.price_claim && !result.stop_triggered
         then ["Fehlend: " ++ rule] else [])
        ++
        (if pyIn "stop_required on legal" (strLower rule)
            && result.legal_claim && !result.stop_triggered
         then ["Fehlend: " ++ rule] else []))
      fviol ++ mviol

/-- The `_agent_stats` defaultdict: an association table from the Python
dict key `result.agent_id` to that agent's running statistics. -/
abbrev StatsTable := List (JValue × AgentStatistics)

/-- The body of `AgentLogScorer._update_statistics` on one agent's record. -/
def updateOneStat (stats : AgentStatistics) (result : ScoreResult) : AgentStatistics :=
  { stats with
    agent_id := result.agent_id
    total_interactions := stats.total_interactions + 1
    total_risk_score := stats.total_risk_score + result.risk
    risk_levels := stats.risk_levels.bump result.risk_level
    price_claims := stats.price_claims + (if result.price_claim then 1 else 0)
    legal_claims := stats.legal_claims + (if result.legal_claim then 1 else 0)
    stops_triggered := stats.stops_triggered + (if result.stop_triggered then 1 else 0)
    placeholders_used := stats.placeholders_used + (if result.placeholder_used then 1 else 0)
    critical_incidents := stats.critical_incidents + (if result.isCritical then 1 else 0) }

/-- `AgentLogScorer._update_statistics`: `self._agent_stats[result.agent_id]`
(the defaultdict creates a fresh record on a missing key), then the
increments. -/
def update_statistics (tbl : StatsTable) (result : ScoreResult) : StatsTable :=
  match tbl with
  | [] => [(result.agent_id, updateOneStat (AgentStatistics.fresh (.str "unknown")) result)]
  | (k, s) :: rest =>
      if JValue.beq k result.agent_id then
        (k, updateOneStat s result) :: rest
      else
        (k, s) :: update_statistics rest result

/-- `AgentLogScorer.score_log`.  State-passing rendition: takes the current
`_agent_stats` table, returns the scored result (or the raised error) and
the updated table. -/
def score_log (config : ScoringConfig) (tbl : StatsTable) (log : JValue) :
    Except String ScoreResult × StatsTable :=
  let v := validate_log log
  if !v.1 then
    (.error v.2, tbl)
  else
    match extractTranscript log with
    | .error e => (.error e, tbl)
    | .ok transcript =>
        let pr := check_keywords transcript config.price_keywords
        let lg := check_keywords transcript config.legal_keywords
        let price_found := pr.1
        let price_keywords := pr.2
        let legal_found := lg.1
        let legal_keywords := lg.2
        let stop_triggered := ((log.objGet "stop_triggered").getD (.bool false)).toBool
        let result_text := pyStr ((log.objGet "result").getD (.str ""))
        let placeholder_used :=
          pyIn "PLACEHOLDER" result_text || pyIn "STOP_REQUIRED" result_text
        let risk_score : Int :=
          (if price_found then 1 else 0)
          + (if legal_found then 1 else 0)
          + (if stop_triggered then -1 else 0)
          + (if placeholder_used && (price_found || legal_found)
             then config.placeholder_bonus else 0)
        let risk_score := max 0 risk_score
        let risk_level := get_risk_level config risk_score
        let result0 : ScoreResult :=
          { agent_id := (log.objGet "agent_id").getD .null
            contact := log.objGet "contact_name"
            timestamp := log.objGet "timestamp"
            price_claim := price_found
            price_keywords_found := price_keywords
            legal_claim := legal_found
            legal_keywords_found := legal_keywords
            stop_triggered := stop_triggered
            placeholder_used := placeholder_used
            risk := risk_score
            risk_level := risk_level
            violations := [] }
        let result := { result0 with violations := check_violations config log transcript result0 }
        (.ok result, update_statistics tbl result)

/-- `AgentLogScorer.reset_statistics` (`self._agent_stats.clear()`). -/
def reset_statistics (tbl : StatsTable) : StatsTable :=
  let _ := tbl
  []

/-- One scorer operation of the kind the claims quantify over: a
`score_log` call or a `reset_statistics` call. -/
inductive ScorerOp where
  | score (log : JValue)
  | reset

/-- Effect of one operation on the `_agent_stats` table. -/
def runOp (config : ScoringConfig) (tbl : StatsTable) : ScorerOp → StatsTable
  | .score log => (score_log config tbl log).2
  | .reset => reset_statistics tbl

/-- Effect of a sequence of operations on a fresh scorer's table. -/
def runOps (config : ScoringConfig) (ops : List ScorerOp) : StatsTable :=
  ops.foldl (runOp config) []

/-- Scenario D input log from the specification. -/
def logD : JValue := .obj
  [("agent_id", .str "AGENT_001"),
   ("transcript", .arr [.obj [("text", .str "Sie fragen nach dem Preis?")]]),
   ("stop_triggered", .bool true),
   ("result", .str "STOP_REQUIRED")]

/-- A placeholder result, used only as the default arm of total projections. -/
def dummyResult : ScoreResult where
  agent_id := .null
  contact := none
  timestamp := none
  price_claim := false
  price_keywords_found := []
  legal_claim := false
  legal_keywords_found := []
  stop_triggered := false
  placeholder_used := false
  risk := 0
  risk_level := .LOW
  violations := []

/-- The result record `score_log` produces for scenario D under the default
configuration. -/
def resD : ScoreResult :=
  match (score_log ScoringConfig.defaults [] logD).1 with
  | .ok r => r
  | .error _ => dummyResult

/-- The statistics table after scoring scenario D on a fresh scorer. -/
def tblD : StatsTable := (score_log ScoringConfig.defaults [] logD).2

/-- C2: for every integer score and every threshold configuration (with the
three consulted keys present), `_get_risk_level` returns LOW if
`score <= thresholds["low"]`, else MEDIUM if `score <= thresholds["medium"]`,
else HIGH if `score <= thresholds["high"]`, else CRITICAL; the `critical`
entry (quantified freely here) is never consulted. -/
theorem claimC2_risk_level_formula (lo me hi : Int) (crit : Option Int)
    (pk lk : List String) (pb : Int) (yr : Option YamlRules) (score : Int) :
    get_risk_level ⟨pk, lk, ⟨some lo, some me, some hi, crit⟩, pb, yr⟩ score
      = (if score ≤ lo then RiskLevel.LOW
         else if score ≤ me then RiskLevel.MEDIUM
         else if score ≤ hi then RiskLevel.HIGH
         else RiskLevel.CRITICAL) := rfl

/-- C4: under the default configuration, scoring the scenario D log yields
`price_claim = true`, `stop_triggered = true`, `risk = 0` (the raw
accumulation `+1 - 1 - 1` clamped to 0) and `risk_level = LOW`. -/
theorem claimC4_scenarioD :
    (score_log ScoringConfig.defaults [] logD).1.map
        (fun r => (r.price_claim, r.stop_triggered, r.risk, r.risk_level))
      = .ok (true, true, 0, RiskLevel.LOW) := rfl

/-- C10: whenever `validate_log` rejects the input, `score_log` raises
exactly the validation error and returns the statistics table unchanged. -/
theorem claimC10_atomic_on_invalid (config : ScoringConfig) (tbl : StatsTable)
    (log : JValue) (h : (validate_log log).1 = false) :
    score_log config tbl log = (.error (validate_log log).2, tbl) := by
  simp only [score_log, h, Bool.not_false, if_true]

/-- Witness for C10 at the scenario E input `"not a dict"`. -/
theorem claimC10_atomic_on_invalid_witness :
    (validate_log (JValue.str "not a dict")).1 = false ∧
      score_log ScoringConfig.defaults [] (JValue.str "not a dict")
        = (.error (validate_log (JValue.str "not a dict")).2, []) :=
  ⟨rfl, claimC10_atomic_on_invalid ScoringConfig.defaults [] (JValue.str "not a dict") rfl⟩

/-- C1: for non-negative scores `s1 < s2` under a fixed threshold
configuration whose consulted low/medium/high bounds are non-decreasing,
the level `_get_risk_level` assigns to `s1` is `<=` (in the `RiskLevel`
order LOW < MEDIUM < HIGH < CRITICAL, i.e. `RiskLevel.__le__`) the level
assigned to `s2`. -/
theorem claimC1_monotonic_classification (config : ScoringConfig) (s1 s2 : Int)
    (h0 : 0 ≤ s1) (h12 : s1 < s2)
    (hlm : config.risk_thresholds.low.getD 0 ≤ config.risk_thresholds.medium.getD 1)
    (hmh : config.risk_thresholds.medium.getD 1 ≤ config.risk_thresholds.high.getD 2) :
    RiskLevel.leB (get_risk_level config s1) (get_risk_level config s2) = true := by
  simp only [get_risk_level]
  split_ifs <;> simp +decide [RiskLevel.leB, RiskLevel.getOrder] <;> omega

/-- Witness for C1: the default thresholds are non-decreasing and
`0 < 5`, so classification at 0 is `<=` classification at 5. -/
theorem claimC1_monotonic_classification_witness :
    (0 : Int) ≤ 0 ∧ (0 : Int) < 5
      ∧ ScoringConfig.defaults.risk_thresholds.low.getD 0
          ≤ ScoringConfig.defaults.risk_thresholds.medium.getD 1
      ∧ ScoringConfig.defaults.risk_thresholds.medium.getD 1
          ≤ ScoringConfig.defaults.risk_thresholds.high.getD 2
      ∧ RiskLevel.leB (get_risk_level ScoringConfig.defaults 0)
          (get_risk_level ScoringConfig.defaults 5) = true :=
  ⟨by norm_num, by norm_num, by decide, by decide,
   claimC1_monotonic_classification ScoringConfig.defaults 0 5
     (by norm_num) (by norm_num) (by decide) (by decide)⟩

/-- C3: whenever `score_log` returns a result (rather than raising), the
result's `risk` field is non-negative — for every configuration (however
negative `placeholder_bonus` is), every starting table, and every log that
passes validation. -/
theorem claimC3_risk_nonneg (config : ScoringConfig) (tbl : StatsTable)
    (log : JValue) (r : ScoreResult) (tbl2 : StatsTable)
    (h : score_log config tbl log = (.ok r, tbl2)) : 0 ≤ r.risk := by
  unfold score_log at h
  dsimp only at h
  split at h
  · simp at h
  · split at h
    · simp at h
    · simp only [Prod.mk.injEq, Except.ok.injEq] at h
      obtain ⟨h1, h2⟩ := h
      subst h1
      exact le_max_left 0 _

/-- Witness for C3 at the scenario D log (whose raw accumulation is -1). -/
theorem claimC3_risk_nonneg_witness :
    score_log ScoringConfig.defaults [] logD = (.ok resD, tblD) ∧ 0 ≤ resD.risk :=
  ⟨rfl, claimC3_risk_nonneg ScoringConfig.defaults [] logD resD tblD rfl⟩

/-- C5: `validate_log` fails exactly when the input is not a dict, or
`agent_id` is absent, or `transcript` is present but not a list — each with
its corresponding message — and any dict with `agent_id` whose `transcript`
(if present) is a list passes, regardless of other fields; in particular
the bare string `"not a dict"` fails with the not-a-mapping error. -/
theorem claimC5_validate_log (log : JValue) :
    ((validate_log log).1 = true ↔
      log.isDict = true ∧ log.hasKey "agent_id" = true ∧
        ∀ t, log.objGet "transcript" = some t → t.isList = true)
    ∧ (log.isDict = false →
        validate_log log
          = (false, "Log muss ein Dictionary sein, erhalten: " ++ log.typeName))
    ∧ (log.isDict = true → log.hasKey "agent_id" = false →
        validate_log log = (false, "Pflichtfeld \x27agent_id\x27 fehlt"))
    ∧ (log.isDict = true → log.hasKey "agent_id" = true →
        ∀ t, log.objGet "transcript" = some t → t.isList = false →
          validate_log log = (false, "Feld \x27transcript\x27 muss eine Liste sein"))
    ∧ validate_log (.str "not a dict")
        = (false, "Log muss ein Dictionary sein, erhalten: str") := by
  refine ⟨?_, ?_, ?_, ?_, rfl⟩ <;>
    (unfold validate_log;
     rcases hT : log.objGet "transcript" with _ | t <;>
       simp only [hT] <;> split_ifs <;> simp_all)

/-- Witness for C5: a minimal dict with only `agent_id` passes validation. -/
theorem claimC5_validate_log_witness :
    (validate_log (JValue.obj [("agent_id", JValue.null)])).1 = true :=
  (claimC5_validate_log (JValue.obj [("agent_id", JValue.null)])).1.mpr
    ⟨rfl, rfl, fun t ht => nomatch ht⟩

/-- C6 counterexample: with the duplicated keyword list `["a", "a"]` the
found list returned by `_check_keywords` contains a duplicate, so the
claim's "no duplicates" clause fails as universally stated. -/
theorem claimC6_duplicate_counterexample :
    check_keywords "a" ["a", "a"] = (true, ["a", "a"])
      ∧ ¬ (["a", "a"] : List String).Nodup :=
  ⟨rfl, by simp⟩

/-- C6 (amended): `_check_keywords` performs case-insensitive substring
search; the boolean is true iff at least one keyword occurs; the found list
is exactly the source-order filter of the keyword list (hence a sublist of
it) and is duplicate-free whenever the keyword list is; the call is
deterministic, so repeating it yields identical results. -/
theorem claimC6_check_keywords (text : String) (keywords : List String) :
    ((check_keywords text keywords).1 = true ↔
        ∃ kw ∈ keywords, pyIn (strLower kw) (strLower text) = true)
      ∧ (check_keywords text keywords).2
          = keywords.filter (fun kw => pyIn (strLower kw) (strLower text))
      ∧ (check_keywords text keywords).2.Sublist keywords
      ∧ (keywords.Nodup → (check_keywords text keywords).2.Nodup)
      ∧ check_keywords text keywords = check_keywords text keywords := by
  refine ⟨?_, rfl, List.filter_sublist _, fun h => h.filter _, rfl⟩
  simp only [check_keywords, gt_iff_lt, decide_eq_true_eq,
    List.length_pos_iff_exists_mem, List.mem_filter]

/-- Witness for C6 on the duplicate-free list `["a", "c"]`. -/
theorem claimC6_check_keywords_witness :
    (check_keywords "ab" ["a", "c"]).2.Nodup :=
  (claimC6_check_keywords "ab" ["a", "c"]).2.2.2.1 (by simp)

/-- The per-agent aggregate scenario F produces: four observations with
risks 0, 1, 2, 3 (classified LOW/MEDIUM/HIGH/CRITICAL by the default
thresholds). -/
def statsF : AgentStatistics where
  agent_id := .str "AGENT_001"
  total_interactions := 4
  total_risk_score := 6
  price_claims := 0
  legal_claims := 0
  stops_triggered := 0
  placeholders_used := 0
  critical_incidents := 2
  risk_levels := ⟨1, 1, 1, 1⟩

/-- A scenario F observation: risk `risk` for agent AGENT_001. -/
def obsF (risk : Int) : ScoreResult :=
  { dummyResult with
    agent_id := .str "AGENT_001"
    risk := risk
    risk_level := get_risk_level ScoringConfig.defaults risk }

/-- The statistics table after aggregating the four scenario F
observations through `_update_statistics`. -/
def tblF : StatsTable := [obsF 0, obsF 1, obsF 2, obsF 3].foldl update_statistics []

/-- C7: `average_risk` is risk sum over interactions (0 on no
interactions), `stop_rate` is stops over claims (1.0 on no claims), and
aggregating four observations with risks 0, 1, 2, 3 for one agent yields
`average_risk = 1.5`. -/
theorem claimC7_rates (s : AgentStatistics) :
    (s.total_interactions ≠ 0 →
        s.averageRisk = (s.total_risk_score : ℚ) / (s.total_interactions : ℚ))
      ∧ (s.total_interactions = 0 → s.averageRisk = 0)
      ∧ (s.price_claims + s.legal_claims ≠ 0 →
          s.stopRate = (s.stops_triggered : ℚ) / ((s.price_claims + s.legal_claims : ℕ) : ℚ))
      ∧ (s.price_claims + s.legal_claims = 0 → s.stopRate = 1)
      ∧ tblF.map (fun p => p.2.averageRisk) = [3 / 2] := by
  refine ⟨fun h => ?_, fun h => ?_, fun h => ?_, fun h => ?_, ?_⟩
  · simp [AgentStatistics.averageRisk, h]
  · simp [AgentStatistics.averageRisk, h]
  · simp [AgentStatistics.stopRate, h]
  · simp [AgentStatistics.stopRate, h]
  · rw [show tblF = [(JValue.str "AGENT_001", statsF)] from rfl]
    simp [AgentStatistics.averageRisk, statsF]
    norm_num

/-- Witness for C7 at the scenario F aggregate (4 interactions, risk sum 6). -/
theorem claimC7_rates_witness :
    statsF.total_interactions ≠ 0
      ∧ statsF.averageRisk = (statsF.total_risk_score : ℚ) / (statsF.total_interactions : ℚ) :=
  ⟨by norm_num [statsF], (claimC7_rates statsF).1 (by norm_num [statsF])⟩

/-- Membership in a conditional singleton, as produced by one rule clause of
`_check_violations`. -/
theorem helper_mem_ite_cons_nil {c : Prop} [Decidable c] {v x : String} :
    v ∈ (if c then [x] else []) ↔ c ∧ v = x := by
  split <;> simp_all

/-- C8: with no rule set `_check_violations` emits nothing; with a rule set,
a violation is exactly a `forbidden` rule mentioning "price estimates
without fact" (resp. "legal promises without fact") firing on
`price_claim ∧ ¬stop_triggered` (resp. legal), or a `must_include` rule
mentioning "stop_required on price" (resp. "... on legal") firing on the
same conditions; nothing else is emitted. -/
theorem claimC8_check_violations (config : ScoringConfig) (log : JValue)
    (transcript : String) (r : ScoreResult) (v : String) :
    (config.yaml_rules = none → check_violations config log transcript r = [])
    ∧ (v ∈ check_violations config log transcript r ↔
        ∃ rules, config.yaml_rules = some rules ∧
          ((∃ rule ∈ rules.forbidden,
              (pyIn "price estimates without fact" (strLower rule) = true
                  ∧ r.price_claim = true ∧ r.stop_triggered = false
                  ∧ v = "Verstoß: " ++ rule)
                ∨ (pyIn "legal promises without fact" (strLower rule) = true
                  ∧ r.legal_claim = true ∧ r.stop_triggered = false
                  ∧ v = "Verstoß: " ++ rule))
            ∨ (∃ rule ∈ rules.must_include,
              (pyIn "stop_required on price" (strLower rule) = true
                  ∧ r.price_claim = true ∧ r.stop_triggered = false
                  ∧ v = "Fehlend: " ++ rule)
                ∨ (pyIn "stop_required on legal" (strLower rule) = true
                  ∧ r.legal_claim = true ∧ r.stop_triggered = false
                  ∧ v = "Fehlend: " ++ rule)))) := by
  constructor
  · intro h
    simp [check_violations, h]
  · cases hy : config.yaml_rules with
    | none => simp [check_violations, hy]
    | some rules =>
        simp [check_violations, hy, List.mem_append, List.mem_flatMap,
          helper_mem_ite_cons_nil, Bool.and_eq_true, Bool.not_eq_true, and_assoc]

/-- Witness for C8: the default configuration carries no rule set, so no
violations are produced. -/
theorem claimC8_check_violations_witness :
    ScoringConfig.defaults.yaml_rules = none
      ∧ check_violations ScoringConfig.defaults JValue.null "" dummyResult = [] :=
  ⟨rfl, (claimC8_check_violations ScoringConfig.defaults JValue.null "" dummyResult "").1 rfl⟩

/-- The C9 invariant on one agent aggregate: the interaction count equals
the histogram total, and `critical_incidents` equals the HIGH + CRITICAL
buckets. -/
def statsInvariant (s : AgentStatistics) : Prop :=
  s.total_interactions
      = s.risk_levels.LOW + s.risk_levels.MEDIUM + s.risk_levels.HIGH + s.risk_levels.CRITICAL
    ∧ s.critical_incidents = s.risk_levels.HIGH + s.risk_levels.CRITICAL

/-- A freshly created aggregate satisfies the invariant. -/
theorem helper_inv_fresh (a : JValue) : statsInvariant (AgentStatistics.fresh a) := by
  simp [statsInvariant, AgentStatistics.fresh]

/-- One `_update_statistics` increment preserves the invariant: exactly one
histogram bucket is bumped, and `critical_incidents` is bumped exactly when
the bucket is HIGH or CRITICAL. -/
theorem helper_inv_updateOne (s : AgentStatistics) (r : ScoreResult)
    (h : statsInvariant s) : statsInvariant (updateOneStat s r) := by
  obtain ⟨h1, h2⟩ := h
  cases hl : r.risk_level <;>
    simp +decide [statsInvariant, updateOneStat, RiskLevelCounts.bump,
      ScoreResult.isCritical, hl, h1, h2] <;> omega

/-- `_update_statistics` preserves the invariant across the whole table. -/
theorem helper_inv_update_statistics (tbl : StatsTable) (r : ScoreResult)
    (H : ∀ p ∈ tbl, statsInvariant p.2) :
    ∀ p ∈ update_statistics tbl r, statsInvariant p.2 := by
  induction tbl with
  | nil =>
      intro p hp
      simp only [update_statistics, List.mem_singleton] at hp
      subst hp
      exact helper_inv_updateOne _ r (helper_inv_fresh _)
  | cons head rest ih =>
      obtain ⟨k, s⟩ := head
      intro p hp
      simp only [update_statistics] at hp
      split at hp
      · rcases List.mem_cons.mp hp with h | h
        · subst h
          exact helper_inv_updateOne s r (H (k, s) (List.mem_cons_self _ _))
        · exact H p (List.mem_cons_of_mem _ h)
      · rcases List.mem_cons.mp hp with h | h
        · subst h
          exact H (k, s) (List.mem_cons_self _ _)
        · exact ih (fun q hq => H q (List.mem_cons_of_mem _ hq)) p h

/-- `score_log` preserves the invariant (it either leaves the table alone
on a raised error or applies `_update_statistics`). -/
theorem helper_inv_score_log (config : ScoringConfig) (tbl : StatsTable) (log : JValue)
    (H : ∀ p ∈ tbl, statsInvariant p.2) :
    ∀ p ∈ (score_log config tbl log).2, statsInvariant p.2 := by
  unfold score_log
  dsimp only
  split
  · exact H
  · split
    · exact H
    · exact helper_inv_update_statistics tbl _ H

/-- Each scorer operation preserves the invariant. -/
theorem helper_inv_runOp (config : ScoringConfig) (tbl : StatsTable) (op : ScorerOp)
    (H : ∀ p ∈ tbl, statsInvariant p.2) :
    ∀ p ∈ runOp config tbl op, statsInvariant p.2 := by
  cases op with
  | score log => exact helper_inv_score_log config tbl log H
  | reset => simp [runOp, reset_statistics]

/-- Folding any operation sequence from an invariant table keeps the
invariant. -/
theorem helper_inv_foldl (config : ScoringConfig) (ops : List ScorerOp) :
    ∀ tbl, (∀ p ∈ tbl, statsInvariant p.2) →
      ∀ p ∈ ops.foldl (runOp config) tbl, statsInvariant p.2 := by
  induction ops with
  | nil => intro tbl H; simpa using H
  | cons op rest ih =>
      intro tbl H
      rw [List.foldl_cons]
      exact ih _ (helper_inv_runOp config tbl op H)

/-- C9: after any sequence of `score_log` and `reset_statistics` calls on a
fresh scorer, every agent's aggregate has `total_interactions` equal to the
sum of its four histogram buckets and `critical_incidents` equal to the sum
of its HIGH and CRITICAL buckets. -/
theorem claimC9_histogram_invariant (config : ScoringConfig) (ops : List ScorerOp)
    (p : JValue × AgentStatistics) (hp : p ∈ runOps config ops) :
    statsInvariant p.2 :=
  helper_inv_foldl config ops [] (by simp) p hp

/-- The single table entry after scoring the scenario D log on a fresh
scorer. -/
def entryD : JValue × AgentStatistics := tblD.headD (.null, AgentStatistics.fresh .null)

/-- Witness for C9 on the one-operation run that scores the scenario D log. -/
theorem claimC9_histogram_invariant_witness : statsInvariant entryD.2 :=
  claimC9_histogram_invariant ScoringConfig.defaults [.score logD] entryD (by
    rw [show runOps ScoringConfig.defaults [ScorerOp.score logD] = [entryD] from rfl]
    exact List.mem_singleton.mpr rfl)
